import Mathlib

/-!
Shallow embedding of the CareerCompass application (src/app.py).

The embedding models, straight from the source:
* the helper string operations used by the code (`str.lower`, `str.strip`,
  `str.title`, `str.capitalize`, `str.split`, `in`-substring test,
  `rsplit('.', 1)[1]`);
* the static data (`JOB_ROLE_SKILLS`, `ALL_POSSIBLE_SKILLS_LOWER`,
  `ALLOWED_EXTENSIONS`, the default skill list);
* `allowed_file`, `extract_text_from_file` (file reading abstracted to the
  per-branch results it consumes), `get_target_skills_static`,
  `extract_skills_nlp`, `generate_recommendation_non_ai`'s missing-skill
  computation, the upload handler's chart/score computation, and the chatbot
  call with its fallback messages (the remote interaction abstracted to an
  outcome value).

Strings are handled on their `List Char` representation; the Python string
methods involved act per ASCII character on the data in this repository, and
the Lean `Char.toLower`/`Char.toUpper` functions used below perform exactly
the ASCII case mapping that `str.lower`/`str.upper` perform on ASCII input.
-/

/-- Model of Python `str.lower()` (ASCII case mapping, per character). -/
def lowerStr (s : String) : String := ⟨s.data.map Char.toLower⟩

/-- Model of Python `str.strip()` on the leading side: drop whitespace. -/
def stripChars (l : List Char) : List Char :=
  ((l.dropWhile Char.isWhitespace).reverse.dropWhile Char.isWhitespace).reverse

/-- Model of Python `str.strip()`: drop leading and trailing whitespace. -/
def stripStr (s : String) : String := ⟨stripChars s.data⟩

/-- Model of Python `needle in hay` prefix step: list-prefix test. -/
def prefixB : List Char → List Char → Bool
  | [], _ => true
  | _ :: _, [] => false
  | a :: as, b :: bs => a == b && prefixB as bs

/-- Model of Python substring containment `needle in hay`. -/
def substrB (needle : List Char) : List Char → Bool
  | [] => needle.isEmpty
  | b :: bs => prefixB needle (b :: bs) || substrB needle bs

/-- Chars after the last `'.'` of the list, if any: Python
`filename.rsplit('.', 1)[1]` when a dot is present, `none` otherwise
(where the Python indexing would raise `IndexError`). -/
def afterLastDot : List Char → Option (List Char)
  | [] => none
  | c :: cs =>
    match afterLastDot cs with
    | some r => some r
    | none => if c = '.' then some cs else none

/-- String wrapper for `afterLastDot`. -/
def afterLastDotStr (s : String) : Option String :=
  (afterLastDot s.data).map (fun l => ⟨l⟩)

/-- Model of Python `str.split()` (split on whitespace runs, no empties);
first argument accumulates the current word in reverse. -/
def splitWordsAux : List Char → List Char → List String
  | acc, [] => if acc = [] then [] else [⟨acc.reverse⟩]
  | acc, c :: cs =>
    if c.isWhitespace then
      if acc = [] then splitWordsAux [] cs
      else (⟨acc.reverse⟩ : String) :: splitWordsAux [] cs
    else splitWordsAux (c :: acc) cs

/-- Model of Python `str.split()` with no arguments. -/
def splitWords (s : String) : List String := splitWordsAux [] s.data

/-- Model of Python `str.title()` (ASCII): the first letter of each run of
letters is uppercased, the following letters lowercased; the boolean records
whether the previous character was a letter. -/
def titleAux : Bool → List Char → List Char
  | _, [] => []
  | prevAlpha, c :: cs =>
    (if c.isAlpha then (if prevAlpha then c.toLower else c.toUpper) else c)
      :: titleAux c.isAlpha cs

/-- Model of Python `str.title()`. -/
def titleStr (s : String) : String := ⟨titleAux false s.data⟩

/-- Model of Python `str.capitalize()` (ASCII): first character uppercased,
the rest lowercased. -/
def capitalizeStr (s : String) : String :=
  match s.data with
  | [] => ""
  | c :: cs => ⟨c.toUpper :: cs.map Char.toLower⟩

/-- The display-casing applied to an extracted skill in
`extract_skills_nlp` (src/app.py line 203):
`skill.title() if len(skill.split()) == 1 else
 ' '.join(word.capitalize() for word in skill.split())`. -/
def displayCase (s : String) : String :=
  if (splitWords s).length = 1 then titleStr s
  else String.intercalate " " ((splitWords s).map capitalizeStr)

/-- `ALLOWED_EXTENSIONS` (src/app.py line 36). -/
def ALLOWED_EXTENSIONS : List String := ["txt", "pdf", "docx"]

/-- `allowed_file` (src/app.py lines 61-64):
`'.' in filename and filename.rsplit('.', 1)[1].lower() in ALLOWED_EXTENSIONS`.
The `none` branch is unreachable when the first conjunct holds; Python's
short-circuit `and` never evaluates the subscript in that case. -/
def allowed_file (filename : String) : Bool :=
  decide ('.' ∈ filename.data) &&
    (match afterLastDotStr filename with
     | some ext => decide (lowerStr ext ∈ ALLOWED_EXTENSIONS)
     | none => false)

/-- The skill list of role `"Software Engineer"` (src/app.py lines 144-150). -/
def SOFTWARE_ENGINEER_SKILLS : List String :=
  ["Python", "Java", "C++", "JavaScript", "SQL", "Data Structures",
   "Algorithms", "Object-Oriented Programming", "Web Development",
   "Cloud Computing", "Version Control (Git)", "Problem Solving",
   "Communication", "Teamwork", "Agile Methodologies", "REST API",
   "Docker", "Kubernetes", "Microservices", "Unit Testing", "CI/CD"]

/-- The skill list of role `"Data Scientist"` (src/app.py lines 151-157). -/
def DATA_SCIENTIST_SKILLS : List String :=
  ["Python", "R", "SQL", "Machine Learning", "Deep Learning",
   "Statistical Modeling", "Data Visualization", "Data Wrangling",
   "Big Data Technologies", "Cloud Computing", "Communication",
   "Problem Solving", "Critical Thinking", "Business Acumen",
   "Pandas", "NumPy", "Scikit-learn", "TensorFlow", "PyTorch", "Spark"]

/-- The skill list of role `"Business Analyst"` (src/app.py lines 158-164). -/
def BUSINESS_ANALYST_SKILLS : List String :=
  ["Requirements Gathering", "Data Analysis", "SQL", "Process Modeling",
   "Stakeholder Management", "Communication", "Problem Solving",
   "Project Management", "Microsoft Excel", "Presentation Skills",
   "Critical Thinking", "Business Process Improvement", "UML", "Agile",
   "User Stories", "Jira", "Confluence"]

/-- The skill list of role `"Project Manager"` (src/app.py lines 165-171). -/
def PROJECT_MANAGER_SKILLS : List String :=
  ["Project Planning", "Risk Management", "Budget Management",
   "Stakeholder Management", "Team Leadership", "Communication",
   "Negotiation", "Problem Solving", "Agile Methodologies",
   "Scrum", "Time Management", "Decision Making", "Gantt Charts",
   "Resource Allocation", "Conflict Resolution"]

/-- `JOB_ROLE_SKILLS` (src/app.py lines 143-172), as an association list. -/
def JOB_ROLE_SKILLS : List (String × List String) :=
  [("Software Engineer", SOFTWARE_ENGINEER_SKILLS),
   ("Data Scientist", DATA_SCIENTIST_SKILLS),
   ("Business Analyst", BUSINESS_ANALYST_SKILLS),
   ("Project Manager", PROJECT_MANAGER_SKILLS)]

/-- The extra soft skills added to the flattened vocabulary
(src/app.py lines 179-182). -/
def EXTRA_SOFT_SKILLS : List String :=
  ["leadership", "adaptability", "creativity", "time management",
   "analytical skills", "attention to detail", "customer service",
   "negotiation", "public speaking"]

/-- `ALL_POSSIBLE_SKILLS_LOWER` (src/app.py lines 175-182): the flattened
lowercased skills of all roles together with the extra soft skills.  The
Python value is a set; it is modelled as a deduplicated list, so membership
agrees and every skill occurs once. -/
def ALL_POSSIBLE_SKILLS_LOWER : List String :=
  (((JOB_ROLE_SKILLS.map Prod.snd).flatten.map lowerStr) ++ EXTRA_SOFT_SKILLS).dedup

/-- The default skill list of `get_target_skills_static` (src/app.py line 189). -/
def DEFAULT_TARGET_SKILLS : List String :=
  ["Communication", "Problem Solving", "Teamwork", "Adaptability"]

/-- `get_target_skills_static` (src/app.py lines 185-189):
`JOB_ROLE_SKILLS.get(job_role, [...default...])`. -/
def get_target_skills_static (job_role : String) : List String :=
  (JOB_ROLE_SKILLS.lookup job_role).getD DEFAULT_TARGET_SKILLS

/-- `extract_skills_nlp` (src/app.py lines 191-205).  spaCy's `doc.text`
reproduces the input text `resume_text.lower()` unchanged, so the membership
test `skill in doc.text` is substring containment in the lowercased text.
The Python set of display-cased matches is modelled as the list of matching
vocabulary entries (the vocabulary list is duplicate-free), display-cased. -/
def extract_skills_nlp (resume_text : String) : List String :=
  (ALL_POSSIBLE_SKILLS_LOWER.filter
      (fun skill => substrB skill.data (lowerStr resume_text).data)).map displayCase

/-- The missing-skill computation of `generate_recommendation_non_ai`
(src/app.py lines 212-215): target skills whose lowercase form is not among
the lowercased extracted skills. -/
def missing_skills (target_job_skills extracted_skills : List String) : List String :=
  target_job_skills.filter
    (fun skill => !(decide (lowerStr skill ∈ extracted_skills.map lowerStr)))

/-- The chart-value (indicator) list built by the upload handler
(src/app.py lines 374-383): one entry per target skill, `1` when the
lowercased skill is among the lowercased extracted skills, else `0`. -/
def chart_values (target_job_skills extracted_skills : List String) : List Nat :=
  target_job_skills.map
    (fun skill => if lowerStr skill ∈ extracted_skills.map lowerStr then 1 else 0)

/-- `matched_skills_count` as accumulated by the upload handler's loop
(src/app.py lines 370-381). -/
def matched_skills_count (target_job_skills extracted_skills : List String) : Nat :=
  target_job_skills.countP
    (fun skill => decide (lowerStr skill ∈ extracted_skills.map lowerStr))

/-- Python `round(x, 2)` modelled on rationals: round `x * 100` to the
nearest integer and divide back. -/
def round2 (x : ℚ) : ℚ := (round (x * 100) : ℚ) / 100

/-- `resume_score` (src/app.py lines 385-388): initialized to `0`, then set
to the rounded percentage when the target list is non-empty. -/
def resume_score (target_job_skills extracted_skills : List String) : ℚ :=
  if target_job_skills = [] then 0
  else round2
    (((matched_skills_count target_job_skills extracted_skills : ℚ) /
        (target_job_skills.length : ℚ)) * 100)

/-- The scoring step of the upload handler (src/app.py lines 359-361 and
369-388): fails (flash + redirect) when the target skill list is empty,
otherwise produces labels, indicator values and the rounded score. -/
def upload_match_step (target_job_skills extracted_skills : List String) :
    Option (List String × List Nat × ℚ) :=
  if target_job_skills = [] then none
  else some (target_job_skills,
    chart_values target_job_skills extracted_skills,
    resume_score target_job_skills extracted_skills)

/-- The score the upload handler computes for a given resume text and target
role (src/app.py lines 356-357 and 385-388). -/
def pipeline_score (resume_text target_job_role : String) : ℚ :=
  resume_score (get_target_skills_static target_job_role)
    (extract_skills_nlp resume_text)

/-- The three file types handled by `extract_text_from_file`. -/
inductive FileKind where
  | txt
  | pdf
  | docx
deriving DecidableEq

/-- The extension string each handled branch tests for. -/
def kindExt : FileKind → String
  | .txt => "txt"
  | .pdf => "pdf"
  | .docx => "docx"

/-- `extract_text_from_file` (src/app.py lines 66-96), with the file reads
abstracted to the values the branches consume: `txtRead` is the decoded text
of the txt branch; `pdfPages` is the per-page extracted text of the pdf
branch (`none` when `pypdf` raises, in which case the function returns
Python `None`); `docxParas` is the paragraph text list of the docx branch
(`none` when parsing raises).  The outer `none` models the uncaught
`IndexError` of `filename.rsplit('.', 1)[1]` when the filename has no dot;
the final branch models falling through every `elif` and returning the
initial empty `text_content`. -/
def extract_text_from_file (filename : String) (txtRead : String)
    (pdfPages : Option (List String)) (docxParas : Option (List String)) :
    Option (Option String) :=
  match afterLastDotStr filename with
  | none => none
  | some ext =>
    if lowerStr ext = "txt" then some (some txtRead)
    else if lowerStr ext = "pdf" then
      some (match pdfPages with
            | none => none
            | some pages => some (String.join pages))
    else if lowerStr ext = "docx" then
      some (match docxParas with
            | none => none
            | some paras => some (String.join (paras.map (fun p => p ++ "\n"))))
    else some (some "")

/-- The distinguishable outcomes of one POST to the upload handler. -/
inductive UploadOutcome where
  | unsupportedType
  | parseFail
  | emptyContent
  | noTargets
  | analyzed (labels : List String) (values : List Nat) (score : ℚ)
deriving DecidableEq

/-- The upload handler's analysis path (src/app.py lines 343-401), with the
extraction result passed in: `unsupportedType` is the `Invalid file type`
flash of the `else` branch; `parseFail` the `Could not extract text` flash
taken when `extract_text_from_file` returned `None` or `""` (the falsy
check on line 346 catches both); `emptyContent` the `Extracted resume text
is empty` flash of line 352; `noTargets` the flash of line 360. -/
def upload_process (filename target_job_role : String)
    (extractResult : Option String) : UploadOutcome :=
  if allowed_file filename then
    match extractResult with
    | none => .parseFail
    | some resume_text =>
      if resume_text = "" then .parseFail
      else if stripStr resume_text = "" then .emptyContent
      else
        let targets := get_target_skills_static target_job_role
        let extracted := extract_skills_nlp resume_text
        if targets = [] then .noTargets
        else .analyzed targets (chart_values targets extracted)
          (resume_score targets extracted)
  else .unsupportedType

/-- The outcomes of the remote generative-language call observable to
`call_gemini_api_for_chatbot`: a successful candidate text, a
content-policy block, a response without the expected candidate structure,
a `requests` transport failure, or any other exception. -/
inductive GeminiOutcome where
  | success (text : String)
  | blocked
  | malformed
  | transportError (msg : String)
  | unexpectedError (msg : String)

/-- `call_gemini_api_for_chatbot` (src/app.py lines 99-138), with the remote
interaction abstracted to its outcome.  Every branch of the source returns a
string; the two `except` clauses catch `requests.exceptions.RequestException`
and `Exception`, so no exception escapes to the caller. -/
def call_gemini_api_for_chatbot (apiKeySet : Bool) (prompt : String)
    (outcome : GeminiOutcome) : String :=
  if !apiKeySet then
    "Sorry, the AI chatbot is not configured. Please ensure the API key is set."
  else
    match outcome with
    | .success t => t
    | .blocked =>
        "The AI response was blocked due to content policy. Please try a different query."
    | .malformed =>
        "Sorry, I couldn\x27t generate a response. The AI returned an unexpected format."
    | .transportError e =>
        "Sorry, I\x27m having trouble connecting to the AI. Error: " ++ e
    | .unexpectedError e =>
        "An unexpected error occurred with the AI. Error: " ++ e

/-- The chatbot route's response computation for a non-empty query
(src/app.py lines 415-425): build the full prompt, call the API, and replace
a falsy (empty) response by the route's own fallback message. -/
def chatbot_response (apiKeySet : Bool) (user_query : String)
    (outcome : GeminiOutcome) : String :=
  let r := call_gemini_api_for_chatbot apiKeySet
    ("You are a helpful and encouraging career guidance AI. Your goal is to provide supportive and actionable advice based on the user\x27s query. Respond to the following query: "
      ++ user_query) outcome
  if r = "" then
    "Sorry, I couldn\x27t generate a response at this time. There might be an issue with the AI service or content policy. Please try again later."
  else r

/-! ## Helper lemmas -/

/-- Every vocabulary entry survives display-casing followed by lowercasing. -/
theorem vocab_displayCase_roundtrip :
    ∀ s ∈ ALL_POSSIBLE_SKILLS_LOWER, lowerStr (displayCase s) = s := by
  decide

/-- The lowercased extracted-skill list is exactly the vocabulary entries
contained in the lowercased resume text. -/
theorem extract_map_lower (text : String) :
    (extract_skills_nlp text).map lowerStr =
      ALL_POSSIBLE_SKILLS_LOWER.filter
        (fun skill => substrB skill.data (lowerStr text).data) := by
  unfold extract_skills_nlp
  rw [List.map_map]
  have h : ∀ s ∈ ALL_POSSIBLE_SKILLS_LOWER.filter
      (fun skill => substrB skill.data (lowerStr text).data),
      (lowerStr ∘ displayCase) s = id s := by
    intro s hs
    exact vocab_displayCase_roundtrip s (List.mem_filter.mp hs).1
  rw [List.map_congr_left h, List.map_id]

/-- For a vocabulary entry, membership in the lowercased extracted skills is
the substring test against the lowercased text. -/
theorem mem_extract_iff (text s : String) (h : s ∈ ALL_POSSIBLE_SKILLS_LOWER) :
    s ∈ (extract_skills_nlp text).map lowerStr ↔
      substrB s.data (lowerStr text).data = true := by
  rw [extract_map_lower, List.mem_filter]
  simp [h]

/-- `get_target_skills_static` returns one of the four role lists or the
default list. -/
theorem get_target_skills_cases (r : String) :
    get_target_skills_static r = SOFTWARE_ENGINEER_SKILLS ∨
    get_target_skills_static r = DATA_SCIENTIST_SKILLS ∨
    get_target_skills_static r = BUSINESS_ANALYST_SKILLS ∨
    get_target_skills_static r = PROJECT_MANAGER_SKILLS ∨
    get_target_skills_static r = DEFAULT_TARGET_SKILLS := by
  by_cases h1 : r = "Software Engineer"
  · subst h1; left; decide
  by_cases h2 : r = "Data Scientist"
  · subst h2; right; left; decide
  by_cases h3 : r = "Business Analyst"
  · subst h3; right; right; left; decide
  by_cases h4 : r = "Project Manager"
  · subst h4; right; right; right; left; decide
  have e1 : (r == "Software Engineer") = false := beq_eq_false_iff_ne.mpr h1
  have e2 : (r == "Data Scientist") = false := beq_eq_false_iff_ne.mpr h2
  have e3 : (r == "Business Analyst") = false := beq_eq_false_iff_ne.mpr h3
  have e4 : (r == "Project Manager") = false := beq_eq_false_iff_ne.mpr h4
  right; right; right; right
  simp [get_target_skills_static, JOB_ROLE_SKILLS, List.lookup, e1, e2, e3, e4]

/-- Every target skill of every role, lowercased, is in the vocabulary. -/
theorem targets_sub_vocab (r : String) :
    ∀ t ∈ get_target_skills_static r, lowerStr t ∈ ALL_POSSIBLE_SKILLS_LOWER := by
  rcases get_target_skills_cases r with h | h | h | h | h <;> rw [h] <;> decide

/-- No role resolves to an empty target skill list. -/
theorem targets_ne_nil (r : String) : get_target_skills_static r ≠ [] := by
  rcases get_target_skills_cases r with h | h | h | h | h <;> rw [h] <;> decide

/-- A dot occurs in the list exactly when `afterLastDot` yields a suffix. -/
theorem mem_dot_iff_afterLastDot (l : List Char) :
    '.' ∈ l ↔ ∃ r, afterLastDot l = some r := by
  induction l with
  | nil => simp [afterLastDot]
  | cons c cs ih =>
    cases h : afterLastDot cs with
    | some r =>
      simp only [afterLastDot, h, List.mem_cons]
      constructor
      · intro _; exact ⟨r, rfl⟩
      · intro _; right; exact ih.mpr ⟨r, h⟩
    | none =>
      simp only [afterLastDot, h, List.mem_cons]
      by_cases hc : c = '.'
      · subst hc; simp
      · have hns : '.' ∉ cs := fun hm => by
          rcases ih.mp hm with ⟨r, hr⟩
          rw [hr] at h; exact Option.noConfusion h
        have hc' : ¬('.' = c) := fun hm => hc hm.symm
        simp [hc, hc', hns]

/-- Characterization of `allowed_file`: the lowercased suffix after the last
dot is one of the three allowed extensions. -/
theorem allowed_file_iff (f : String) :
    allowed_file f = true ↔
      ∃ e, afterLastDotStr f = some e ∧ lowerStr e ∈ ALLOWED_EXTENSIONS := by
  unfold allowed_file afterLastDotStr
  constructor
  · intro h
    simp only [Bool.and_eq_true] at h
    obtain ⟨hdot, hmatch⟩ := h
    rcases (mem_dot_iff_afterLastDot f.data).mp (of_decide_eq_true hdot) with ⟨r, hr⟩
    refine ⟨⟨r⟩, by rw [hr]; rfl, ?_⟩
    rw [hr] at hmatch
    exact of_decide_eq_true hmatch
  · rintro ⟨e, he, hmem⟩
    rcases Option.map_eq_some'.mp he with ⟨r, hr, hre⟩
    simp only [Bool.and_eq_true]
    constructor
    · exact decide_eq_true ((mem_dot_iff_afterLastDot f.data).mpr ⟨r, hr⟩)
    · rw [hr]
      simp only [Option.map_some']
      subst hre
      exact decide_eq_true hmem

/-- The count of `1` entries in the chart values is the matched-skill count
accumulated by the upload loop. -/
theorem chart_count_matched (targets extracted : List String) :
    (chart_values targets extracted).count 1 =
      matched_skills_count targets extracted := by
  induction targets with
  | nil => rfl
  | cons s ts ih =>
    by_cases h : lowerStr s ∈ extracted.map lowerStr <;>
      simp [chart_values, matched_skills_count, List.count_cons, List.countP_cons,
        h, List.map_cons] at * <;> omega

/-- `round2` maps `[0, 100]` into `[0, 100]`. -/
theorem round2_bounds {x : ℚ} (h0 : 0 ≤ x) (h1 : x ≤ 100) :
    0 ≤ round2 x ∧ round2 x ≤ 100 := by
  have hlow : (0 : ℤ) ≤ round (x * 100) := by
    have : round ((0 : ℚ)) ≤ round (x * 100) := by
      rw [round_eq, round_eq]
      exact Int.floor_mono (by linarith)
    simpa using this
  have hhigh : round (x * 100) ≤ 10000 := by
    have : round (x * 100) ≤ round ((10000 : ℚ)) := by
      rw [round_eq, round_eq]
      exact Int.floor_mono (by linarith)
    have h10 : round ((10000 : ℚ)) = 10000 := by
      have : ((10000 : ℤ) : ℚ) = (10000 : ℚ) := by norm_num
      rw [← this, round_intCast]
    omega
  unfold round2
  constructor
  · apply div_nonneg _ (by norm_num)
    exact_mod_cast hlow
  · rw [div_le_iff₀ (by norm_num : (0 : ℚ) < 100)]
    have : ((round (x * 100) : ℤ) : ℚ) ≤ ((10000 : ℤ) : ℚ) := by exact_mod_cast hhigh
    calc ((round (x * 100) : ℤ) : ℚ) ≤ ((10000 : ℤ) : ℚ) := this
      _ = 100 * 100 := by norm_num

/-! ## Claim theorems -/

/-- Claim C1: for every target job role and every resume text, the match
indicator of each target skill is 1 if and only if the lowercased skill
string is contained as a substring of the lowercased resume text (no
tokenization or word-boundary checks); in particular, for role
"Software Engineer" and the text "python, sql, docker" the indicators of
Python, SQL and Docker are 1 and all other target skills' indicators are 0. -/
theorem C1_indicator_is_substring_test :
    (∀ role text : String,
        chart_values (get_target_skills_static role) (extract_skills_nlp text) =
          (get_target_skills_static role).map
            (fun t => if substrB (lowerStr t).data (lowerStr text).data then 1 else 0))
    ∧ chart_values (get_target_skills_static "Software Engineer")
        (extract_skills_nlp "python, sql, docker") =
        [1, 0, 0, 0, 1, 0, 0, 0, 0, 0, 0, 0, 0, 0, 0, 0, 1, 0, 0, 0, 0] := by
  constructor
  · intro role text
    unfold chart_values
    apply List.map_congr_left
    intro t ht
    have hv := targets_sub_vocab role t ht
    have hiff := mem_extract_iff text (lowerStr t) hv
    exact if_congr hiff rfl rfl
  · decide

/-- Claim C2: for every non-empty target skill list, the upload step
produces the score (number of indicator-1 entries / number of target
skills) × 100 rounded to 2 decimal places; for the empty target skill list
it produces no score and fails. -/
theorem C2_score_is_rounded_ratio :
    (∀ targets extracted : List String, targets ≠ [] →
        upload_match_step targets extracted =
          some (targets, chart_values targets extracted,
            round2 ((((chart_values targets extracted).count 1 : ℚ) /
              (targets.length : ℚ)) * 100)))
    ∧ ∀ extracted : List String, upload_match_step [] extracted = none := by
  constructor
  · intro targets extracted ht
    rw [chart_count_matched]
    simp [upload_match_step, resume_score, ht]
  · intro extracted
    simp [upload_match_step]

/-- Witness for C2 at a concrete input: one of two target skills matched
gives a score of 50. -/
theorem C2_score_is_rounded_ratio_witness :
    upload_match_step ["Python", "Java"] ["Python"] =
      some (["Python", "Java"], [1, 0], 50) := by
  have h := C2_score_is_rounded_ratio.1 ["Python", "Java"] ["Python"] (by decide)
  have hc : chart_values ["Python", "Java"] ["Python"] = [1, 0] := by decide
  have hcount : (List.count 1 ([1, 0] : List Nat)) = 1 := by decide
  have hlen : (["Python", "Java"] : List String).length = 2 := rfl
  rw [h, hc, hcount, hlen]
  have hx : ((1 : Nat) : ℚ) / ((2 : Nat) : ℚ) * 100 * 100 = ((5000 : ℤ) : ℚ) := by
    norm_num
  simp only [round2, hx, round_intCast]
  norm_num

/-- Claim C3: for every resume text and target role, the computed score is
in [0, 100]; it is 0 whenever the extracted-skill set is empty; and it is
100 whenever every target skill's lowercased string occurs as a substring
of the lowercased resume text. -/
theorem C3_score_bounds (text role : String) :
    0 ≤ pipeline_score text role ∧ pipeline_score text role ≤ 100
    ∧ (extract_skills_nlp text = [] → pipeline_score text role = 0)
    ∧ ((∀ t ∈ get_target_skills_static role,
          substrB (lowerStr t).data (lowerStr text).data = true) →
        pipeline_score text role = 100) := by
  set T := get_target_skills_static role with hT
  set E := extract_skills_nlp text with hE
  have hTne : T ≠ [] := targets_ne_nil role
  have hlen : 0 < (T.length : ℚ) := by
    have : 0 < T.length := List.length_pos.mpr hTne
    exact_mod_cast this
  have hm_le : (matched_skills_count T E : ℚ) ≤ (T.length : ℚ) := by
    exact_mod_cast List.countP_le_length _
  have hscore : pipeline_score text role =
      round2 (((matched_skills_count T E : ℚ) / (T.length : ℚ)) * 100) := by
    simp [pipeline_score, resume_score, hTne]
  have hx0 : 0 ≤ ((matched_skills_count T E : ℚ) / (T.length : ℚ)) * 100 := by
    positivity
  have hx1 : ((matched_skills_count T E : ℚ) / (T.length : ℚ)) * 100 ≤ 100 := by
    have hr : (matched_skills_count T E : ℚ) / (T.length : ℚ) ≤ 1 :=
      (div_le_one hlen).mpr hm_le
    nlinarith
  obtain ⟨hb0, hb1⟩ := round2_bounds hx0 hx1
  refine ⟨by rw [hscore]; exact hb0, by rw [hscore]; exact hb1, ?_, ?_⟩
  · intro hEnil
    have hm0 : matched_skills_count T E = 0 := by
      apply List.countP_eq_zero.mpr
      intro t _
      simp [hEnil]
    rw [hscore, hm0]
    norm_num [round2]
  · intro hall
    have hm : matched_skills_count T E = T.length := by
      apply List.countP_eq_length.mpr
      intro t ht
      have hv := targets_sub_vocab role t ht
      have hiff := mem_extract_iff text (lowerStr t) hv
      exact decide_eq_true (hiff.mpr (hall t ht))
    rw [hscore, hm]
    rw [div_self (ne_of_gt hlen)]
    have hx : (1 : ℚ) * 100 * 100 = ((10000 : ℤ) : ℚ) := by norm_num
    simp only [round2, hx, round_intCast]
    norm_num

/-- Witness for C3 at a concrete input: an unknown role's default skills all
occur in the text, giving a score of 100. -/
theorem C3_score_bounds_witness :
    pipeline_score "communication problem solving teamwork adaptability"
      "Astronaut" = 100 :=
  (C3_score_bounds "communication problem solving teamwork adaptability"
    "Astronaut").2.2.2 (by decide)

/-- Claim C4: for every input prompt, the chat completion path returns a
non-empty string and never raises to its caller (every branch of the model
is total): on a content-policy block, a malformed remote response, and a
transport failure it returns a user-safe fallback message. -/
theorem C4_chat_completion_nonempty :
    (∀ (apiKeySet : Bool) (query : String) (outcome : GeminiOutcome),
        chatbot_response apiKeySet query outcome ≠ "")
    ∧ (∀ prompt : String, call_gemini_api_for_chatbot true prompt .blocked =
        "The AI response was blocked due to content policy. Please try a different query.")
    ∧ (∀ prompt : String, call_gemini_api_for_chatbot true prompt .malformed =
        "Sorry, I couldn\x27t generate a response. The AI returned an unexpected format.")
    ∧ (∀ (prompt msg : String),
        call_gemini_api_for_chatbot true prompt (.transportError msg) ≠ "") := by
  refine ⟨?_, fun _ => rfl, fun _ => rfl, ?_⟩
  · intro k q o
    simp only [chatbot_response]
    split
    · decide
    · next h => exact h
  · intro p m heq
    have h1 : call_gemini_api_for_chatbot true p (.transportError m) =
        "Sorry, I\x27m having trouble connecting to the AI. Error: " ++ m := rfl
    rw [h1] at heq
    have h2 := congrArg String.length heq
    rw [String.length_append] at h2
    have h3 : 0 <
        ("Sorry, I\x27m having trouble connecting to the AI. Error: ").length := by
      decide
    have h4 : ("" : String).length = 0 := rfl
    rw [h4] at h2
    omega

/-- Claim C5, counterexample: an extraction that succeeds with the empty
string is reported through the very same branch as a parse failure, not as
the distinct empty-content failure. -/
theorem C5_counterexample :
    upload_process "resume.txt" "Software Engineer" (some "") =
      upload_process "resume.txt" "Software Engineer" none
    ∧ upload_process "resume.txt" "Software Engineer" (some "") ≠
      UploadOutcome.emptyContent := by
  decide

/-- Claim C5, amended: when extraction succeeds with a whitespace-only but
non-empty string, the upload handler reports the distinct empty-content
failure; a parse failure and an exactly-empty extraction result are both
reported as the parse-failure flash. -/
theorem C5_whitespace_distinct (filename role t : String)
    (hf : allowed_file filename = true) (hne : t ≠ "")
    (hws : stripStr t = "") :
    upload_process filename role (some t) = UploadOutcome.emptyContent
    ∧ upload_process filename role none = UploadOutcome.parseFail
    ∧ upload_process filename role (some "") = UploadOutcome.parseFail := by
  refine ⟨?_, ?_, ?_⟩ <;> simp [upload_process, hf, hne, hws]

/-- Witness for the amended C5 at a concrete input: a single space. -/
theorem C5_whitespace_distinct_witness :
    upload_process "resume.txt" "Software Engineer" (some " ") =
      UploadOutcome.emptyContent :=
  (C5_whitespace_distinct "resume.txt" "Software Engineer" " "
    (by decide) (by decide) (by decide)).1

/-- Claim C6: the upload gate accepts exactly the filenames whose
lowercased suffix after the last dot is txt, pdf or docx, and any other
filename is rejected as unsupported regardless of any extraction result. -/
theorem C6_extension_gate (filename : String) :
    (allowed_file filename = true ↔
      ∃ e, afterLastDotStr filename = some e ∧ lowerStr e ∈ ALLOWED_EXTENSIONS)
    ∧ (allowed_file filename = false →
        ∀ (role : String) (extractResult : Option String),
          upload_process filename role extractResult =
            UploadOutcome.unsupportedType) := by
  refine ⟨allowed_file_iff filename, ?_⟩
  intro hf role er
  simp [upload_process, hf]

/-- Witness for C6: a case-varied pdf suffix is accepted, an exe file is
rejected without extraction being consulted. -/
theorem C6_extension_gate_witness :
    allowed_file "Resume.PDF" = true ∧
    upload_process "virus.exe" "Software Engineer" (some "python") =
      UploadOutcome.unsupportedType := by
  constructor
  · decide
  · exact (C6_extension_gate "virus.exe").2 (by decide)
      "Software Engineer" (some "python")

/-- Claim C7: every role name outside the four known roles resolves to the
default skill list Communication, Problem Solving, Teamwork, Adaptability. -/
theorem C7_unknown_role_default (role : String)
    (h : role ∉ ["Software Engineer", "Data Scientist", "Business Analyst",
      "Project Manager"]) :
    get_target_skills_static role =
      ["Communication", "Problem Solving", "Teamwork", "Adaptability"] := by
  simp only [List.mem_cons, List.not_mem_nil, or_false] at h
  push_neg at h
  obtain ⟨h1, h2, h3, h4⟩ := h
  have e1 : (role == "Software Engineer") = false := beq_eq_false_iff_ne.mpr h1
  have e2 : (role == "Data Scientist") = false := beq_eq_false_iff_ne.mpr h2
  have e3 : (role == "Business Analyst") = false := beq_eq_false_iff_ne.mpr h3
  have e4 : (role == "Project Manager") = false := beq_eq_false_iff_ne.mpr h4
  simp [get_target_skills_static, JOB_ROLE_SKILLS, List.lookup,
    e1, e2, e3, e4, DEFAULT_TARGET_SKILLS]

/-- Witness for C7 at the spec's example role. -/
theorem C7_unknown_role_default_witness :
    get_target_skills_static "Astronaut" =
      ["Communication", "Problem Solving", "Teamwork", "Adaptability"] :=
  C7_unknown_role_default "Astronaut" (by decide)

/-- Filtering a list by the negation of a predicate agrees with zipping the
list against its 0/1 indicator image and keeping the 0 entries. -/
theorem filter_zip_indicator (targets : List String) (pred : String → Prop)
    [DecidablePred pred] :
    targets.filter (fun t => !decide (pred t)) =
      ((targets.zip (targets.map (fun t => if pred t then 1 else 0))).filter
          (fun p => p.2 = 0)).map Prod.fst := by
  induction targets with
  | nil => rfl
  | cons s ts ih =>
    by_cases h : pred s
    · simp [List.filter_cons, List.zip_cons_cons, h, ih]
    · simp [List.filter_cons, List.zip_cons_cons, h, ih]

/-- Claim C8: the missing-skill list is exactly the target skills whose
chart indicator is 0, in the original target-skill order (a sublist of the
target list). -/
theorem C8_missing_skills_order (targets extracted : List String) :
    missing_skills targets extracted =
      ((targets.zip (chart_values targets extracted)).filter
          (fun p => p.2 = 0)).map Prod.fst
    ∧ List.Sublist (missing_skills targets extracted) targets := by
  constructor
  · exact filter_zip_indicator targets
      (fun t => lowerStr t ∈ extracted.map lowerStr)
  · exact List.filter_sublist targets

/-- Claim C9: display-casing a vocabulary skill and lowercasing again gives
back the original lowercase string, so membership of a vocabulary skill in
the lowercased extracted skills agrees with raw substring presence in the
lowercased resume text. -/
theorem C9_display_lower_roundtrip (s : String)
    (hs : s ∈ ALL_POSSIBLE_SKILLS_LOWER) :
    lowerStr (displayCase s) = s
    ∧ ∀ text : String,
        (s ∈ (extract_skills_nlp text).map lowerStr ↔
          substrB s.data (lowerStr text).data = true) :=
  ⟨vocab_displayCase_roundtrip s hs, fun text => mem_extract_iff text s hs⟩

/-- Witness for C9 at a multi-word vocabulary entry containing
punctuation. -/
theorem C9_display_lower_roundtrip_witness :
    lowerStr (displayCase "version control (git)") = "version control (git)" :=
  (C9_display_lower_roundtrip "version control (git)" (by decide)).1

/-- Claim C10: whenever the extension gate accepts a filename, the suffix
after the last dot exists, exactly one of the three extraction branches
applies to it, and the extractor is well-defined (it never hits the
missing-suffix error and never falls through every branch). -/
theorem C10_accepted_file_has_unique_branch (filename : String)
    (h : allowed_file filename = true) :
    (∃ e, afterLastDotStr filename = some e ∧
      ∃! k : FileKind, lowerStr e = kindExt k)
    ∧ ∀ (txtRead : String) (pdfPages docxParas : Option (List String)),
        (extract_text_from_file filename txtRead pdfPages docxParas).isSome
          = true := by
  obtain ⟨e, he, hmem⟩ := (allowed_file_iff filename).mp h
  constructor
  · refine ⟨e, he, ?_⟩
    simp only [ALLOWED_EXTENSIONS, List.mem_cons, List.not_mem_nil,
      or_false] at hmem
    rcases hmem with h1 | h1 | h1
    · exact ⟨.txt, h1, fun y hy => by
        cases y <;> first | rfl | exact absurd (h1.symm.trans hy) (by decide)⟩
    · exact ⟨.pdf, h1, fun y hy => by
        cases y <;> first | rfl | exact absurd (h1.symm.trans hy) (by decide)⟩
    · exact ⟨.docx, h1, fun y hy => by
        cases y <;> first | rfl | exact absurd (h1.symm.trans hy) (by decide)⟩
  · intro rt pp dp
    have hrw : extract_text_from_file filename rt pp dp =
        (if lowerStr e = "txt" then some (some rt)
         else if lowerStr e = "pdf" then
           some (match pp with
                 | none => none
                 | some pages => some (String.join pages))
         else if lowerStr e = "docx" then
           some (match dp with
                 | none => none
                 | some paras =>
                     some (String.join (paras.map (fun p => p ++ "\n"))))
         else some (some "")) := by
      unfold extract_text_from_file
      rw [he]
    rw [hrw]
    split_ifs <;> rfl

/-- Witness for C10 at a concrete accepted filename. -/
theorem C10_accepted_file_has_unique_branch_witness :
    (extract_text_from_file "resume.PDF" "" none none).isSome = true :=
  (C10_accepted_file_has_unique_branch "resume.PDF" (by decide)).2 "" none none
